import Mathlib

/-!
Shallow embedding of the ESC/POS stream interpreter of `src/main.rs`
(struct `EscPosRenderer` and its methods), together with proofs checking
the specification's claims about it.

Modelling conventions:
* Bytes are `Nat`; real inputs satisfy `b < 256`.  `u16` state fields are
  reduced `% 65536` at assignment; the one place where 16-bit signed
  wrap-around genuinely occurs on byte input (`ESC \`) is modelled
  explicitly with two's-complement arithmetic.
* The source decodes `current_line` with external code-page tables
  (`codepage_437`, `encoding_rs`) that are not part of this repository; a
  `Text` element here carries the raw line bytes together with the
  code-page and encoding snapshot, of which the decoded string is a pure
  function.  Likewise `QrCode` carries the raw payload bytes.
* `anyhow::Result` is irrelevant: every handler always returns `Ok`, so
  handlers are pure functions returning the new renderer and cursor.
* `query_log` is a ghost history field: it is appended exactly at the
  source lines that queue reverse-channel bytes, records which query
  command matched there, and influences nothing else.  It lets the
  response-ordering claim be stated against an independent, spec-derived
  pattern table (`specQueryResponse`).
* Out-of-range list reads use `List.getD _ _ 0`.  The source can panic on
  a few pathological inputs (e.g. `buffer.drain` past the end after an
  unbounded `ESC (` skip); those inputs are outside every claim and the
  embedding totalises them harmlessly.
-/

namespace EscPos

inductive Alignment where
  | left
  | center
  | right
deriving DecidableEq, Repr

/-- Printer state, mirroring struct `PrinterState` in `src/main.rs`.
The `encoding` field abbreviates the `encoding_rs` table selected by
`ESC t`: 0 = UTF-8 (the freshly-constructed default), 1252/1251/1250 =
the Windows code pages, 932 = Shift-JIS. -/
structure PrinterState where
  bold : Bool
  underline : Bool
  double_width : Bool
  double_height : Bool
  inverted : Bool
  alignment : Alignment
  print_density : Nat
  encoding : Nat
  code_page : Nat
  horizontal_offset : Nat
  left_margin : Nat
  print_area_width : Nat
  line_spacing : Nat
  character_spacing : Nat
  double_strike : Bool
  font : Nat
deriving DecidableEq, Repr

/-- `PrinterState::default()` from the source. -/
def PrinterState.default : PrinterState where
  bold := false
  underline := false
  double_width := false
  double_height := false
  inverted := false
  alignment := Alignment.left
  print_density := 4
  encoding := 0
  code_page := 0
  horizontal_offset := 0
  left_margin := 0
  print_area_width := 0
  line_spacing := 30
  character_spacing := 0
  double_strike := false
  font := 0

/-- Receipt elements, mirroring enum `ReceiptElement`.  `text` carries the
raw line bytes plus the code-page/encoding snapshot instead of the decoded
string (see the module comment); the remaining formatting fields are the
snapshot taken in `flush_line`. -/
inductive ReceiptElement where
  | text (content : List Nat) (code_page : Nat) (encoding : Nat)
      (bold underline double_width double_height inverted : Bool)
      (alignment : Alignment) (density : Nat) (offset : Nat)
      (left_margin : Nat) (character_spacing : Nat) (double_strike : Bool)
      (font : Nat) (print_area_width : Nat)
  | rasterImage (width height : Nat) (data : List Nat) (offset : Nat)
      (density : Nat) (alignment : Alignment) (bytes_per_line : Nat)
      (print_area_width : Nat)
  | qrCode (data : List Nat) (size : Nat) (alignment : Alignment)
      (offset : Nat) (print_area_width : Nat)
  | paperCut (cut_type : String)
  | cashDrawer (pin on_time off_time : Nat)
  | separator
  | formFeed
deriving DecidableEq, Repr

/-- Which reverse-channel query matched (ghost data for the response
ordering property): real-time status `DLE EOT`/`DLE ENQ`, transmit status
`GS r`, ASB enable `GS a` with nonzero flags, identity queries
`GS I 0x42` / `GS I 0x43`. -/
inductive QueryKind where
  | realTimeStatus
  | transmitStatus
  | asbEnable
  | idManufacturer
  | idModel
deriving DecidableEq, Repr

/-- Parser/renderer state, mirroring struct `EscPosRenderer` (the `debug`
flag only controls logging and is omitted; `query_log` is ghost, see the
module comment). -/
structure EscPosRenderer where
  state : PrinterState
  current_line : List Nat
  buffer : List Nat
  elements : List ReceiptElement
  in_command_sequence : Bool
  qr_data : List Nat
  qr_size : Nat
  qr_error_correction : Nat
  response_queue : List Nat
  last_was_binary : Bool
  query_log : List QueryKind
deriving DecidableEq, Repr

/-- `EscPosRenderer::new` from the source. -/
def EscPosRenderer.new : EscPosRenderer where
  state := PrinterState.default
  current_line := []
  buffer := []
  elements := []
  in_command_sequence := false
  qr_data := []
  qr_size := 3
  qr_error_correction := 0
  response_queue := []
  last_was_binary := false
  query_log := []

/-- The code-page to `encoding_rs` table map of `ESC t` (source lines
794-809): 17 selects Windows-1251, 18 Windows-1250, 20/21/255 Shift-JIS,
everything else (including 0..5, 16, 19) Windows-1252. -/
def escTEncoding (n : Nat) : Nat :=
  if n = 17 then 1251
  else if n = 18 then 1250
  else if n = 20 ∨ n = 21 ∨ n = 255 then 932
  else 1252

/-- Scan forward from `i` to the first NUL byte and past it (the
`ESC D` / `GS k` type 0-5 loops in the source). -/
def skipToNul (data : List Nat) (i : Nat) : Nat :=
  match (data.drop i).findIdx? (fun b => b == 0) with
  | some k => i + k + 1
  | none => data.length

/-- The `PaperCut` category string chosen by `handle_paper_cut`. -/
def cutTypeName (mode : Nat) : String :=
  if mode = 0 ∨ mode = 48 then "FULL CUT"
  else if mode = 1 ∨ mode = 49 then "PARTIAL CUT"
  else if mode = 65 then "FEED & FULL CUT"
  else if mode = 66 then "FEED & PARTIAL CUT"
  else "UNKNOWN CUT"

/-- Reinterpret a `u16`-ranged value as an `i16` (Rust `as i16`). -/
def sign16 (v : Nat) : Int :=
  if v % 65536 < 32768 then ((v % 65536 : Nat) : Int)
  else ((v % 65536 : Nat) : Int) - 65536

/-- Wrapping 16-bit signed arithmetic (Rust release-mode `i16` overflow). -/
def wrap16 (x : Int) : Int :=
  (x + 32768) % 65536 - 32768

/-- The `Text` element pushed by `flush_line`, with the formatting
snapshot taken from the given state. -/
def mkTextElement (st : PrinterState) (line : List Nat) : ReceiptElement :=
  ReceiptElement.text line st.code_page st.encoding st.bold st.underline
    st.double_width st.double_height st.inverted st.alignment
    st.print_density st.horizontal_offset st.left_margin
    st.character_spacing st.double_strike st.font st.print_area_width

/-- `EscPosRenderer::flush_line`: if the pending line is non-empty, push a
`Text` element with the current formatting snapshot and clear the one-shot
horizontal offset.  `current_line` itself is NOT cleared here (callers
clear it, except `handle_paper_cut`). -/
def flush_line (r : EscPosRenderer) : EscPosRenderer :=
  if r.current_line = [] then r
  else
    { r with
      elements := r.elements ++ [mkTextElement r.state r.current_line],
      state := { r.state with horizontal_offset := 0 } }

/-- `EscPosRenderer::column_to_raster`: convert `ESC *` column-major data
to a row-major MSB-first bitmap.  The source's early `break`s are modelled
by per-iteration guards, which is equivalent because the guarded indices
are monotone in iteration order. -/
def column_to_raster (column_data : List Nat) (width height : Nat) : List Nat :=
  let bytes_per_column := height / 8
  let bytes_per_row := (width + 7) / 8
  let init : Array Nat := Array.mkArray (bytes_per_row * height) 0
  let out := (List.range width).foldl (fun acc col =>
    (List.range bytes_per_column).foldl (fun acc byte_in_col =>
      if col * bytes_per_column + byte_in_col < column_data.length then
        let col_byte := column_data.getD (col * bytes_per_column + byte_in_col) 0
        (List.range 8).foldl (fun acc bit =>
          let y := byte_in_col * 8 + bit
          if y < height then
            let pixel := (col_byte >>> (7 - bit)) &&& 1
            let row_byte_idx := y * bytes_per_row + col / 8
            let row_bit_idx := 7 - col % 8
            if row_byte_idx < acc.size then
              acc.setD row_byte_idx (acc.getD row_byte_idx 0 ||| (pixel <<< row_bit_idx))
            else acc
          else acc) acc
      else acc) acc) init
  out.toList

/-- `EscPosRenderer::handle_raster_graphics` (`ESC * m nL nH` + column
data).  Entered with `i` at the `m` byte; `i - 2` is the `ESC` introducer
used for rewinds. -/
def handle_raster_graphics (r : EscPosRenderer) (data : List Nat) (i : Nat) :
    EscPosRenderer × Nat :=
  let start_i := i - 2
  if i + 3 > data.length then (r, start_i)
  else
    let m := data.getD i 0
    let nl := data.getD (i+1) 0
    let nh := data.getD (i+2) 0
    let width := nl + 256 * nh
    let height := if m = 0 ∨ m = 1 then 8 else if m = 32 ∨ m = 33 then 24 else 8
    let pos := i + 3
    if width = 0 ∨ width > 10000 then (r, pos)
    else
      let bytes_per_column := height / 8
      let total_bytes := width * bytes_per_column
      if total_bytes > 1000000 then (r, pos)
      else if pos + total_bytes > data.length then (r, start_i)
      else
        let r1 := if r.current_line ≠ [] then { flush_line r with current_line := [] } else r
        let column_data := (data.drop pos).take total_bytes
        let raster_data := column_to_raster column_data width height
        ({ r1 with
            elements := r1.elements ++ [ReceiptElement.rasterImage width height
              raster_data r1.state.horizontal_offset r1.state.print_density
              r1.state.alignment ((width + 7) / 8) r1.state.print_area_width],
            state := { r1.state with horizontal_offset := 0 },
            last_was_binary := true },
          pos + total_bytes)

/-- `EscPosRenderer::handle_raster_graphics_gs` (`GS v 0 m xL xH yL yH` +
row data).  Entered with `i` at the variant byte; `i - 2` is the `GS`
introducer. -/
def handle_raster_graphics_gs (r : EscPosRenderer) (data : List Nat) (i : Nat) :
    EscPosRenderer × Nat :=
  let start_i := i - 2
  if i + 6 > data.length then (r, start_i)
  else
    let xl := data.getD (i+2) 0
    let xh := data.getD (i+3) 0
    let yl := data.getD (i+4) 0
    let yh := data.getD (i+5) 0
    let pos := i + 6
    let width_in_bytes := xl + 256 * xh
    let height := yl + 256 * yh
    let width := width_in_bytes * 8
    if width_in_bytes = 0 ∨ height = 0 then (r, pos)
    else if width > 10000 ∨ height > 10000 then
      let total_bytes := width_in_bytes * height
      if total_bytes > 5000000 then (r, start_i)
      else if pos + total_bytes > data.length then (r, start_i)
      else (r, pos + total_bytes)
    else
      let total_bytes := width_in_bytes * height
      if total_bytes > 5000000 then (r, pos)
      else if pos + total_bytes > data.length then (r, start_i)
      else
        let r1 := if r.current_line ≠ [] then { flush_line r with current_line := [] } else r
        ({ r1 with
            elements := r1.elements ++ [ReceiptElement.rasterImage width height
              ((data.drop pos).take total_bytes) r1.state.horizontal_offset
              r1.state.print_density r1.state.alignment width_in_bytes
              r1.state.print_area_width],
            state := { r1.state with horizontal_offset := 0 },
            last_was_binary := true },
          pos + total_bytes)

/-- `EscPosRenderer::handle_gs_8l` (`GS 8 L` long-form raster).  Entered
with `i` at the `L` byte; `i - 1` (the `8` byte) is returned on rewind,
which the dispatch loop's `new_i == i` test turns into a rewind to the
`GS` introducer. -/
def handle_gs_8l (r : EscPosRenderer) (data : List Nat) (i : Nat) :
    EscPosRenderer × Nat :=
  let start_i := i - 1
  if i + 10 > data.length then (r, start_i)
  else
    let p1 := data.getD (i+1) 0
    let p2 := data.getD (i+2) 0
    let p3 := data.getD (i+3) 0
    let p4 := data.getD (i+4) 0
    let data_len := p1 + 256 * p2 + 65536 * p3 + 16777216 * p4
    let m := data.getD (i+5) 0
    let base := i + 11
    if m = 48 ∨ m = 112 then
      if base + 4 > data.length then (r, start_i)
      else
        let xl := data.getD base 0
        let xh := data.getD (base+1) 0
        let yl := data.getD (base+2) 0
        let yh := data.getD (base+3) 0
        let width := xl + 256 * xh
        let height := yl + 256 * yh
        let pos := base + 4
        let image_bytes := (width + 7) / 8 * height
        if data_len > 100000 ∨ image_bytes > 5000000 then
          if pos + (data_len - 6) ≤ data.length then (r, pos + (data_len - 6))
          else (r, start_i)
        else if pos + image_bytes > data.length then (r, start_i)
        else
          let r1 := if r.current_line ≠ [] then { flush_line r with current_line := [] } else r
          ({ r1 with
              elements := r1.elements ++ [ReceiptElement.rasterImage width height
                ((data.drop pos).take image_bytes) r1.state.horizontal_offset
                r1.state.print_density r1.state.alignment ((width + 7) / 8)
                r1.state.print_area_width],
              state := { r1.state with horizontal_offset := 0 },
              last_was_binary := true },
            pos + image_bytes)
    else
      (r, base + min (data_len - 6) (data.length - base))

/-- `EscPosRenderer::handle_qr_code` (`GS ( k`).  Entered with `i` at the
`k` byte; `i - 1` is the `(` byte returned on rewind (again turned into a
rewind to `GS` by the dispatch loop). -/
def handle_qr_code (r : EscPosRenderer) (data : List Nat) (i : Nat) :
    EscPosRenderer × Nat :=
  let start_i := i - 1
  if i + 4 > data.length then (r, start_i)
  else
    let param_len := data.getD (i+1) 0 + 256 * data.getD (i+2) 0
    let cn := data.getD (i+3) 0
    let fnCode := data.getD (i+4) 0
    let base := i + 5
    if cn ≠ 49 then (r, base + min (param_len - 2) (data.length - base))
    else if fnCode = 65 ∨ fnCode = 67 then
      if base < data.length then
        (if fnCode = 67 then { r with qr_size := data.getD base 0 } else r, base + 1)
      else (r, base)
    else if fnCode = 69 then
      if base < data.length then
        ({ r with qr_error_correction := data.getD base 0 }, base + 1)
      else (r, base)
    else if fnCode = 80 then
      let dl := param_len - 3
      if base + dl > data.length then (r, start_i)
      else ({ r with qr_data := (data.drop base).take dl }, base + dl)
    else if fnCode = 81 then
      if r.qr_data ≠ [] then
        let r1 := if r.current_line ≠ [] then { flush_line r with current_line := [] } else r
        ({ r1 with
            elements := r1.elements ++ [ReceiptElement.qrCode r1.qr_data
              (min (max r1.qr_size 1) 16) r1.state.alignment
              r1.state.horizontal_offset r1.state.print_area_width],
            state := { r1.state with horizontal_offset := 0 },
            qr_data := [] },
          base)
      else (r, base)
    else (r, base + min (param_len - 2) (data.length - base))

/-- `EscPosRenderer::handle_paper_cut` (`GS V`): read the mode byte, flush
any pending line (without clearing `current_line` - `flush_line` does not
clear and this caller, unlike the others, does not clear either), then
push the `PaperCut` element. -/
def handle_paper_cut (r : EscPosRenderer) (data : List Nat) (i : Nat) :
    EscPosRenderer × Nat :=
  let mode := data.getD i 0
  let r1 := flush_line r
  ({ r1 with elements := r1.elements ++ [ReceiptElement.paperCut (cutTypeName mode)] },
    i + 1)

/-- `EscPosRenderer::handle_esc_command`.  Entered with `i` at the command
byte following `ESC`; returns the renderer and the new cursor.  Index
arithmetic is written with explicit offsets from `i` instead of the
source's mutable `i`; the source's combined `S|T|U|W` arm is written as
two arms with identical semantics. -/
def handle_esc_command (r : EscPosRenderer) (data : List Nat) (i : Nat) :
    EscPosRenderer × Nat :=
  match data.getD i 0 with
  | 0x40 => ({ r with state := PrinterState.default }, i + 1)
  | 0x45 =>
    if i + 1 < data.length then
      ({ r with state := { r.state with bold := data.getD (i+1) 0 == 1 } }, i + 2)
    else (r, i + 1)
  | 0x2D =>
    if i + 1 < data.length then
      ({ r with state := { r.state with
          underline := data.getD (i+1) 0 == 1 || data.getD (i+1) 0 == 2 } }, i + 2)
    else (r, i + 1)
  | 0x61 =>
    if i + 1 < data.length then
      let a :=
        if data.getD (i+1) 0 = 0 then Alignment.left
        else if data.getD (i+1) 0 = 1 then Alignment.center
        else if data.getD (i+1) 0 = 2 then Alignment.right
        else Alignment.left
      ({ r with state := { r.state with alignment := a } }, i + 2)
    else (r, i + 1)
  | 0x21 =>
    if i + 1 < data.length then
      ({ r with state := { r.state with
          bold := (data.getD (i+1) 0 &&& 0x08) != 0,
          double_height := (data.getD (i+1) 0 &&& 0x10) != 0,
          double_width := (data.getD (i+1) 0 &&& 0x20) != 0,
          underline := (data.getD (i+1) 0 &&& 0x80) != 0 } }, i + 2)
    else (r, i + 1)
  | 0x64 =>
    if i + 1 < data.length then
      ({ r with elements := r.elements ++
          List.replicate (data.getD (i+1) 0) ReceiptElement.separator }, i + 2)
    else (r, i + 1)
  | 0x2A => handle_raster_graphics r data (i + 1)
  | 0x7E =>
    if i + 1 < data.length then
      ({ r with state := { r.state with print_density := min (data.getD (i+1) 0) 8 } },
        i + 2)
    else (r, i + 1)
  | 0x70 =>
    if i + 3 < data.length then
      ({ r with elements := r.elements ++ [ReceiptElement.cashDrawer
          (data.getD (i+1) 0) (data.getD (i+2) 0) (data.getD (i+3) 0)] }, i + 4)
    else (r, i + 1)
  | 0x20 =>
    if i + 1 < data.length then
      ({ r with state := { r.state with character_spacing := data.getD (i+1) 0 } },
        i + 2)
    else (r, i + 1)
  | 0x24 =>
    if i + 2 < data.length then
      ({ r with state := { r.state with horizontal_offset :=
          (data.getD (i+1) 0 + 256 * data.getD (i+2) 0) % 65536 } }, i + 3)
    else (r, i + 1)
  | 0x5C =>
    if i + 2 < data.length then
      ({ r with state := { r.state with horizontal_offset :=
          (max (wrap16 (sign16 r.state.horizontal_offset +
            sign16 (data.getD (i+1) 0 + 256 * data.getD (i+2) 0))) 0).toNat } }, i + 3)
    else (r, i + 1)
  | 0x4B | 0x4C =>
    if i + 2 < data.length then
      let width := data.getD (i+1) 0 + 256 * data.getD (i+2) 0
      if i + 3 + width ≤ data.length then (r, i + 3 + width) else (r, i + 3)
    else (r, i + 1)
  | 0x59 | 0x5A =>
    if i + 2 < data.length then
      let width := data.getD (i+1) 0 + 256 * data.getD (i+2) 0
      if i + 3 + width * 2 ≤ data.length then (r, i + 3 + width * 2) else (r, i + 3)
    else (r, i + 1)
  | 0x44 => (r, skipToNul data (i + 1))
  | 0x53 | 0x54 | 0x55 =>
    if i + 1 < data.length then (r, i + 2) else (r, i + 1)
  | 0x57 =>
    if i + 1 < data.length then
      if i + 8 < data.length then (r, i + 9) else (r, i + 2)
    else (r, i + 1)
  | 0x63 =>
    if i + 2 < data.length then (r, i + 3) else (r, i + 1)
  | 0x69 => (r, i + 1)
  | 0x73 | 0x06 | 0x75 | 0x76 =>
    if i + 1 < data.length then (r, i + 2) else (r, i + 1)
  | 0x74 =>
    if i + 1 < data.length then
      let n := data.getD (i+1) 0
      ({ r with state :=
          { r.state with code_page := n, encoding := escTEncoding n } }, i + 2)
    else (r, i + 1)
  | 0x4D =>
    if i + 1 < data.length then
      ({ r with state := { r.state with font := data.getD (i+1) 0 } }, i + 2)
    else (r, i + 1)
  | 0x52 | 0x72 | 0x25 =>
    if i + 1 < data.length then (r, i + 2) else (r, i + 1)
  | 0x32 => ({ r with state := { r.state with line_spacing := 30 } }, i + 1)
  | 0x33 =>
    if i + 1 < data.length then
      ({ r with state := { r.state with line_spacing := data.getD (i+1) 0 } }, i + 2)
    else (r, i + 1)
  | 0x7B =>
    if i + 1 < data.length then (r, i + 2) else (r, i + 1)
  | 0x47 =>
    if i + 1 < data.length then
      ({ r with state := { r.state with double_strike := data.getD (i+1) 0 != 0 } },
        i + 2)
    else (r, i + 1)
  | 0x4A =>
    if i + 1 < data.length then
      ({ r with elements := r.elements ++
          List.replicate (data.getD (i+1) 0) ReceiptElement.separator }, i + 2)
    else (r, i + 1)
  | 0x56 =>
    if i + 1 < data.length then (r, i + 2) else (r, i + 1)
  | 0x28 =>
    if i + 3 < data.length then
      (r, i + 4 + (data.getD (i+2) 0 + 256 * data.getD (i+3) 0))
    else (r, i + 1)
  | 0x26 =>
    if i + 3 < data.length then
      let y := data.getD (i+1) 0
      let c1 := data.getD (i+2) 0
      let c2 := data.getD (i+3) 0
      let num_chars := if c1 ≤ c2 then c2 - c1 + 1 else 0
      (r, i + 4 + num_chars * (y * 2))
    else (r, i + 1)
  | 0x3F | 0x3D =>
    if i + 1 < data.length then (r, i + 2) else (r, i + 1)
  | 0x3C => (r, i + 1)
  | _ =>
    if i + 1 < data.length then (r, i + 2) else (r, i + 1)

/-- `EscPosRenderer::handle_gs_command`.  Entered with `i` at the command
byte following `GS`.  The source's explicit `0x00 | 0x80 | 0xF7` arm
behaves identically to the final catch-all (consume one parameter byte if
present) and is merged into it here. -/
def handle_gs_command (r : EscPosRenderer) (data : List Nat) (i : Nat) :
    EscPosRenderer × Nat :=
  match data.getD i 0 with
  | 0x38 =>
    if i + 1 < data.length then
      if data.getD (i+1) 0 = 0x4C then handle_gs_8l r data (i + 1)
      else
        if i + 6 > data.length then (r, i - 1)
        else
          let len := data.getD (i+2) 0 + 256 * data.getD (i+3) 0 +
            65536 * data.getD (i+4) 0 + 16777216 * data.getD (i+5) 0
          let skip := min len 1000000
          if i + 6 + skip > data.length then (r, i - 1)
          else (r, i + 6 + skip)
    else (r, i + 1)
  | 0x56 =>
    if i + 1 < data.length then handle_paper_cut r data (i + 1) else (r, i + 1)
  | 0x76 =>
    if i + 1 < data.length then handle_raster_graphics_gs r data (i + 1)
    else (r, i + 1)
  | 0x21 =>
    if i + 1 < data.length then
      ({ r with state := { r.state with
          double_width := decide ((data.getD (i+1) 0 &&& 0x07) + 1 > 1),
          double_height := decide (((data.getD (i+1) 0 >>> 4) &&& 0x07) + 1 > 1) } },
        i + 2)
    else (r, i + 1)
  | 0x42 =>
    if i + 1 < data.length then
      ({ r with state := { r.state with inverted := data.getD (i+1) 0 == 1 } }, i + 2)
    else (r, i + 1)
  | 0x4C =>
    if i + 2 < data.length then
      ({ r with state := { r.state with left_margin :=
          (data.getD (i+1) 0 + 256 * data.getD (i+2) 0) % 65536 } }, i + 3)
    else (r, i + 1)
  | 0x57 =>
    if i + 2 < data.length then
      ({ r with state := { r.state with print_area_width :=
          (data.getD (i+1) 0 + 256 * data.getD (i+2) 0) % 65536 } }, i + 3)
    else (r, i + 1)
  | 0x48 | 0x68 | 0x77 =>
    if i + 1 < data.length then (r, i + 2) else (r, i + 1)
  | 0x6B =>
    if i + 1 < data.length then
      if data.getD (i+1) 0 < 6 then (r, skipToNul data (i + 2))
      else if i + 2 < data.length then (r, i + 3 + data.getD (i+2) 0)
      else (r, i + 2)
    else (r, i + 1)
  | 0x28 =>
    if i + 1 < data.length then
      if data.getD (i+1) 0 = 0x6B then handle_qr_code r data (i + 1)
      else if i + 3 < data.length then
        (r, i + 4 + (data.getD (i+2) 0 + 256 * data.getD (i+3) 0))
      else (r, i + 1)
    else (r, i + 1)
  | 0x61 =>
    if i + 1 < data.length then
      if data.getD (i+1) 0 ≠ 0 then
        ({ r with
            response_queue := r.response_queue ++ [0x10, 0x00, 0x00, 0x00],
            query_log := r.query_log ++ [QueryKind.asbEnable] }, i + 2)
      else (r, i + 2)
    else (r, i + 1)
  | 0x49 =>
    if i + 1 < data.length then
      if data.getD (i+1) 0 = 0x42 then
        -- pushes 0x5F, then b"CITIZEN", then 0x00
        ({ r with
            response_queue := r.response_queue ++
              [0x5F, 0x43, 0x49, 0x54, 0x49, 0x5A, 0x45, 0x4E, 0x00],
            query_log := r.query_log ++ [QueryKind.idManufacturer] }, i + 2)
      else if data.getD (i+1) 0 = 0x43 then
        -- pushes 0x5F, then b"CT-S310", then 0x00
        ({ r with
            response_queue := r.response_queue ++
              [0x5F, 0x43, 0x54, 0x2D, 0x53, 0x33, 0x31, 0x30, 0x00],
            query_log := r.query_log ++ [QueryKind.idModel] }, i + 2)
      else (r, i + 2)
    else (r, i + 1)
  | 0x72 =>
    if i + 1 < data.length then
      ({ r with
          response_queue := r.response_queue ++ [0x08],
          query_log := r.query_log ++ [QueryKind.transmitStatus] }, i + 2)
    else (r, i + 1)
  | 0x24 =>
    if i + 2 < data.length then (r, i + 3) else (r, i + 1)
  | _ =>
    if i + 1 < data.length then (r, i + 2) else (r, i + 1)

/-- Result of one iteration of the `process_data` dispatch loop: either
continue at the new cursor, or break out (rewinding for an incomplete
command, or holding back a trailing printable byte). -/
inductive StepOut where
  | cont (r : EscPosRenderer) (i : Nat)
  | stop (r : EscPosRenderer) (i : Nat)

/-- The renderer carried by a `StepOut`. -/
def StepOut.renderer : StepOut → EscPosRenderer
  | .cont r _ => r
  | .stop r _ => r

/-- The cursor carried by a `StepOut`. -/
def StepOut.cursor : StepOut → Nat
  | .cont _ i => i
  | .stop _ i => i

/-- One iteration of the `while i < data.len()` loop in
`EscPosRenderer::process_data`, dispatching on `data[i]`.  The source's
match arms that merely consume the byte (CAN, DC1, DC3, DC4, SO, SI, VT,
SOH..BEL, ETB, RS, and the `0x00..=0x1F | 0x7F` catch-all) all behave
identically and are merged into the final catch-all here, which first
tests for the printable ranges.  Where a branch sets
`in_command_sequence = true` and then back to `false` before the next
iteration, the net record update is written directly. -/
def process_step (r : EscPosRenderer) (data : List Nat) (i : Nat) : StepOut :=
  match data.getD i 0 with
  | 0x10 =>
    if i + 1 ≥ data.length then StepOut.stop { r with in_command_sequence := true } i
    else
      let subcmd := data.getD (i+1) 0
      if subcmd = 0x04 ∨ subcmd = 0x05 then
        if i + 2 < data.length then
          StepOut.cont { r with
            response_queue := r.response_queue ++ [0x12],
            query_log := r.query_log ++ [QueryKind.realTimeStatus],
            in_command_sequence := false } (i + 3)
        else StepOut.cont { r with in_command_sequence := false } (i + 2)
      else if subcmd = 0x14 then
        if i + 3 < data.length then
          StepOut.cont { r with in_command_sequence := false } (i + 4)
        else StepOut.cont { r with in_command_sequence := false } (i + 2)
      else StepOut.cont { r with in_command_sequence := false } (i + 2)
  | 0x12 =>
    if i + 1 < data.length ∧ data.getD (i+1) 0 = 0x23 then
      if i + 2 < data.length then
        StepOut.cont { r with state := { r.state with
          print_density := min (data.getD (i+2) 0 / 32) 8 } } (i + 3)
      else StepOut.cont r (i + 2)
    else StepOut.cont { r with state := { r.state with bold := false } } (i + 1)
  | 0x08 =>
    StepOut.cont { r with current_line := r.current_line.dropLast } (i + 1)
  | 0x1B =>
    if i + 1 ≥ data.length then StepOut.stop { r with in_command_sequence := true } i
    else
      let p := handle_esc_command { r with in_command_sequence := true } data (i + 1)
      if p.2 = i + 1 ∨ p.2 ≤ i then StepOut.stop p.1 i
      else StepOut.cont { p.1 with in_command_sequence := false } p.2
  | 0x1D =>
    if i + 1 ≥ data.length then StepOut.stop { r with in_command_sequence := true } i
    else
      let p := handle_gs_command { r with in_command_sequence := true } data (i + 1)
      if p.2 = i + 1 ∨ p.2 ≤ i then StepOut.stop p.1 i
      else StepOut.cont { p.1 with in_command_sequence := false } p.2
  | 0x1C =>
    if i + 1 ≥ data.length then StepOut.stop { r with in_command_sequence := true } i
    else
      let fscmd := data.getD (i+1) 0
      let j : Nat :=
        if fscmd = 0x2E then
          if i + 2 < data.length ∧ data.getD (i+2) 0 ≠ 0x1B ∧ data.getD (i+2) 0 ≠ 0x1D ∧
              data.getD (i+2) 0 ≠ 0x1C ∧ data.getD (i+2) 0 ≠ 0x10 then i + 3
          else i + 2
        else if fscmd = 0x70 then
          if i + 3 < data.length then i + 4 else i + 2
        else if fscmd = 0x71 then
          if i + 2 < data.length then
            if data.getD (i+2) 0 > 0 ∧ i + 7 < data.length then
              let width := data.getD (i+3) 0 + 256 * data.getD (i+4) 0
              let height := data.getD (i+5) 0 + 256 * data.getD (i+6) 0
              i + 7 + min ((width + 7) / 8 * height) (data.length - (i + 3))
            else i + 3
          else i + 2
        else if fscmd = 0x28 then
          if i + 5 < data.length then
            i + 5 + min (data.getD (i+3) 0 + 256 * data.getD (i+4) 0)
              (data.length - (i + 2))
          else i + 2
        else if fscmd = 0x43 ∨ fscmd = 0x67 ∨ fscmd = 0x21 ∨ fscmd = 0x26 ∨
            fscmd = 0x53 ∨ fscmd = 0x2D then
          if i + 2 < data.length then i + 3 else i + 2
        else
          if i + 2 < data.length ∧ (data.getD (i+2) 0 < 0x1B ∨ data.getD (i+2) 0 > 0x7E) then
            if i + 3 < data.length ∧ data.getD (i+2) 0 > 0x7F ∧
                (data.getD (i+3) 0 < 0x1B ∨ data.getD (i+3) 0 > 0x7E) then i + 4
            else i + 3
          else i + 2
      StepOut.cont { r with in_command_sequence := false } j
  | 0x0A =>
    let r1 := { r with in_command_sequence := false, last_was_binary := false }
    let r2 :=
      if r1.current_line ≠ [] then { flush_line r1 with current_line := [] }
      else if r1.elements ≠ [] then
        { r1 with elements := r1.elements ++ [ReceiptElement.separator] }
      else r1
    StepOut.cont r2 (i + 1)
  | 0x0D =>
    let r1 := { r with in_command_sequence := false, last_was_binary := false }
    let r2 := if r1.current_line ≠ [] then { flush_line r1 with current_line := [] } else r1
    StepOut.cont r2 (i + 1)
  | 0x0C =>
    let r1 := { r with current_line := [] }
    let r2 :=
      if r1.elements.getLast? = some ReceiptElement.formFeed then r1
      else { r1 with elements := r1.elements ++ [ReceiptElement.formFeed] }
    StepOut.cont r2 (i + 1)
  | 0x09 =>
    StepOut.cont
      (if r.in_command_sequence then r
       else { r with current_line := r.current_line ++ [0x20, 0x20, 0x20, 0x20] })
      (i + 1)
  | b =>
    if (0x20 ≤ b ∧ b ≤ 0x7E) ∨ (0x80 ≤ b ∧ b ≤ 0xFF) then
      if i = data.length - 1 ∧ r.buffer ≠ [] then StepOut.stop r i
      else
        StepOut.cont
          (if r.in_command_sequence = false ∧ r.last_was_binary = false then
            { r with current_line := r.current_line ++ [b] }
           else r)
          (i + 1)
    else
      StepOut.cont r (i + 1)

/-- The `while` loop of `process_data`, with fuel.  Every continuing step
strictly increases the cursor, so `data.length + 1` fuel always suffices.
Returns the final renderer and the drain point. -/
def process_loop (r : EscPosRenderer) (data : List Nat) (i fuel : Nat) :
    EscPosRenderer × Nat :=
  match fuel with
  | 0 => (r, i)
  | Nat.succ f =>
    if i < data.length then
      match process_step r data i with
      | StepOut.cont r1 i1 => process_loop r1 data i1 f
      | StepOut.stop r1 i1 => (r1, i1)
    else (r, i)

/-- `EscPosRenderer::process_data`: append the chunk to the pending
buffer, run the dispatch loop over the (cloned) buffer, then drain the
consumed prefix. -/
def process_data (r : EscPosRenderer) (chunk : List Nat) : EscPosRenderer :=
  let r0 := { r with buffer := r.buffer ++ chunk }
  let data := r0.buffer
  let out := process_loop r0 data 0 (data.length + 1)
  { out.1 with buffer := data.drop out.2 }

/-- Feed a list of chunks successively, starting from a renderer. -/
def runFrom (r : EscPosRenderer) (chunks : List (List Nat)) : EscPosRenderer :=
  chunks.foldl process_data r

/-- Feed a list of chunks successively into a fresh renderer. -/
def runChunks (chunks : List (List Nat)) : EscPosRenderer :=
  runFrom EscPosRenderer.new chunks

/-- Modelled from the spec (§6 "Wire protocol", outbound): the byte-exact
reverse-channel pattern each query command must produce.  Real-time status
is one byte `0x12`; transmit status one byte `0x08`; ASB enable the four
bytes `0x10 0x00 0x00 0x00`; `GS I 0x42` is `0x5F "CITIZEN" 0x00`; and
`GS I 0x43` is `0x5F "CT-S310" 0x00`. -/
def specQueryResponse : QueryKind → List Nat
  | QueryKind.realTimeStatus => [0x12]
  | QueryKind.transmitStatus => [0x08]
  | QueryKind.asbEnable => [0x10, 0x00, 0x00, 0x00]
  | QueryKind.idManufacturer => [0x5F, 0x43, 0x49, 0x54, 0x49, 0x5A, 0x45, 0x4E, 0x00]
  | QueryKind.idModel => [0x5F, 0x43, 0x54, 0x2D, 0x53, 0x33, 0x31, 0x30, 0x00]

/-- Concatenation, in order, of the spec-side response patterns of a query
history. -/
def joinQueryResponses (ks : List QueryKind) : List Nat :=
  (ks.map specQueryResponse).flatten

/-- Is this element a `FormFeed`? -/
def isFF : ReceiptElement → Bool
  | ReceiptElement.formFeed => true
  | _ => false

/-- No two consecutive `FormFeed` elements occur in the list. -/
def noAdjFF : List ReceiptElement → Bool
  | [] => true
  | [_] => true
  | a :: b :: t => !(isFF a && isFF b) && noAdjFF (b :: t)

/-- The printable-byte range of the dispatch loop (`0x20..=0x7E` and
`0x80..=0xFF`). -/
def isPrintableByte (b : Nat) : Bool :=
  (0x20 ≤ b && b ≤ 0x7E) || (0x80 ≤ b && b ≤ 0xFF)

/-- Observable-extension relation between renderer states: the query log
grows by some history `ks` whose spec-side response patterns are exactly
the bytes appended to the response queue, and appending to the element
stream preserves the no-adjacent-form-feed invariant. -/
def Extends (r r' : EscPosRenderer) : Prop :=
  (∃ ks, r'.query_log = r.query_log ++ ks ∧
      r'.response_queue = r.response_queue ++ joinQueryResponses ks) ∧
  (noAdjFF r.elements = true → noAdjFF r'.elements = true)

/-- Claim predicate for the size-mode bit decoding of `GS !` and `ESC !`:
the double-width/height flags are set exactly when the respective
multiplier `(n & 7)+1` / `((n >> 4) & 7)+1` exceeds 1, and the `ESC !`
mode bits 3/4/5/7 drive bold, double-height, double-width and underline;
with the spec's two concrete instances `GS ! 0x11` and `ESC ! 0x30`. -/
def sizeModeBitsClaim (r : EscPosRenderer) (n : Nat) : Prop :=
  ((handle_gs_command r [0x21, n] 0).1.state.double_width =
      decide ((n &&& 0x07) + 1 > 1) ∧
   (handle_gs_command r [0x21, n] 0).1.state.double_height =
      decide (((n >>> 4) &&& 0x07) + 1 > 1) ∧
   (handle_esc_command r [0x21, n] 0).1.state.bold = ((n &&& 0x08) != 0) ∧
   (handle_esc_command r [0x21, n] 0).1.state.double_height = ((n &&& 0x10) != 0) ∧
   (handle_esc_command r [0x21, n] 0).1.state.double_width = ((n &&& 0x20) != 0) ∧
   (handle_esc_command r [0x21, n] 0).1.state.underline = ((n &&& 0x80) != 0)) ∧
  ((handle_gs_command r [0x21, 0x11] 0).1.state.double_width = true ∧
   (handle_gs_command r [0x21, 0x11] 0).1.state.double_height = true ∧
   (handle_esc_command r [0x21, 0x30] 0).1.state.double_width = true ∧
   (handle_esc_command r [0x21, 0x30] 0).1.state.double_height = true)

/-- Claim predicate for `ESC \ nL nH`: the resulting offset is the exact
sum of the current offset and the little-endian signed 16-bit
displacement, clamped at 0. -/
def relOffsetExactClaim (r : EscPosRenderer) (nl nh : Nat) : Prop :=
  (handle_esc_command r [0x5C, nl, nh] 0).1.state.horizontal_offset =
    (max ((r.state.horizontal_offset : Int) + sign16 (nl + 256 * nh)) 0).toNat

/-- Claim predicate for `GS V` with a pending line: the `Text` element
holding the pending line (to be decoded with the snapshot it carries) is
emitted immediately before the `PaperCut`, and `current_line` survives the
flush. -/
def paperCutFlushClaim (r : EscPosRenderer) (mode : Nat) : Prop :=
  (handle_paper_cut r [mode] 0).1.elements =
    r.elements ++ [mkTextElement r.state r.current_line,
      ReceiptElement.paperCut (cutTypeName mode)] ∧
  (handle_paper_cut r [mode] 0).1.current_line = r.current_line

/-- Claim predicate for an all-printable chunk with empty prior buffer:
no element is emitted, the final printable byte stays buffered, and (when
not in a command sequence or after binary data) the other bytes join
`current_line`. -/
def trailingPrintableClaim (r : EscPosRenderer) (bytes : List Nat)
    (hne : bytes ≠ []) : Prop :=
  (process_data r bytes).elements = r.elements ∧
  (process_data r bytes).buffer = [bytes.getLast hne] ∧
  (r.in_command_sequence = false → r.last_was_binary = false →
    (process_data r bytes).current_line = r.current_line ++ bytes.dropLast)

/-- Claim predicate for the blank-line path: a lone `LF` fed to a state
with no pending bytes emits no `Separator`. -/
def lfNoLeadingSeparatorClaim (r : EscPosRenderer) : Prop :=
  ∀ e ∈ (process_data r [0x0A]).elements, e ≠ ReceiptElement.separator

/-! ### Lemmas about the no-adjacent-form-feed predicate -/

theorem noAdjFF_of_nonFF (l : List ReceiptElement)
    (h : ∀ e ∈ l, isFF e = false) : noAdjFF l = true := by
  induction l with
  | nil => rfl
  | cons a t ih =>
    cases t with
    | nil => rfl
    | cons b t2 =>
      have hb : isFF b = false := h b (List.mem_cons_of_mem a (List.mem_cons_self b t2))
      have ht : noAdjFF (b :: t2) = true :=
        ih (fun e he => h e (List.mem_cons_of_mem a he))
      simp [noAdjFF, hb, ht]

theorem noAdjFF_cons_of_cons (a b : ReceiptElement) (t : List ReceiptElement)
    (h : noAdjFF (a :: b :: t) = true) : noAdjFF (b :: t) = true := by
  simp [noAdjFF] at h
  exact h.2

theorem noAdjFF_head_pair (a b : ReceiptElement) (t : List ReceiptElement)
    (h : noAdjFF (a :: b :: t) = true) : (isFF a && isFF b) = false := by
  simp [noAdjFF] at h
  rcases h.1 with h1 | h1 <;> simp [h1]

theorem noAdjFF_append (l l2 : List ReceiptElement) (h : noAdjFF l = true)
    (h2 : ∀ e ∈ l2, isFF e = false) : noAdjFF (l ++ l2) = true := by
  induction l with
  | nil => simpa using noAdjFF_of_nonFF l2 h2
  | cons a t ih =>
    cases t with
    | nil =>
      cases l2 with
      | nil => simpa using h
      | cons b t2 =>
        have hb : isFF b = false := h2 b (List.mem_cons_self b t2)
        have ht : noAdjFF (b :: t2) = true := noAdjFF_of_nonFF _ h2
        simp [noAdjFF, hb, ht]
    | cons c t2 =>
      have hpair := noAdjFF_head_pair a c t2 h
      have htail := ih (noAdjFF_cons_of_cons a c t2 h)
      simpa [noAdjFF, hpair] using htail

theorem isFF_eq_true_iff (e : ReceiptElement) :
    isFF e = true ↔ e = ReceiptElement.formFeed := by
  cases e <;> simp [isFF]

theorem noAdjFF_snoc_ff (l : List ReceiptElement) (h : noAdjFF l = true)
    (hl : l.getLast? ≠ some ReceiptElement.formFeed) :
    noAdjFF (l ++ [ReceiptElement.formFeed]) = true := by
  induction l with
  | nil => rfl
  | cons a t ih =>
    cases t with
    | nil =>
      have ha : a ≠ ReceiptElement.formFeed := by
        intro hcontra
        exact hl (by simp [hcontra])
      have ha2 : isFF a = false := by
        cases hff : isFF a
        · rfl
        · exact absurd ((isFF_eq_true_iff a).1 hff) ha
      simp [noAdjFF, ha2]
    | cons c t2 =>
      have hpair := noAdjFF_head_pair a c t2 h
      have hlast : (c :: t2).getLast? ≠ some ReceiptElement.formFeed := by
        intro hcontra
        exact hl (by rw [List.getLast?_cons_cons]; exact hcontra)
      have htail := ih (noAdjFF_cons_of_cons a c t2 h) hlast
      simpa [noAdjFF, hpair] using htail

theorem nonFF_singleton (e : ReceiptElement) (h : isFF e = false) :
    ∀ x ∈ [e], isFF x = false := by
  intro x hx
  rw [List.mem_singleton] at hx
  rw [hx]
  exact h

theorem nonFF_replicate (n : Nat) :
    ∀ x ∈ List.replicate n ReceiptElement.separator, isFF x = false := by
  intro x hx
  rw [List.eq_of_mem_replicate hx]
  rfl

theorem nonFF_pair (e1 e2 : ReceiptElement) (h1 : isFF e1 = false)
    (h2 : isFF e2 = false) : ∀ x ∈ [e1, e2], isFF x = false := by
  intro x hx
  rcases List.mem_pair.mp hx with h | h <;> rw [h] <;> assumption

/-! ### The extension relation and its combinators -/

theorem extends_refl (r : EscPosRenderer) : Extends r r :=
  ⟨⟨[], by simp, by simp [joinQueryResponses]⟩, fun h => h⟩

theorem extends_trans {r1 r2 r3 : EscPosRenderer} (h12 : Extends r1 r2)
    (h23 : Extends r2 r3) : Extends r1 r3 := by
  obtain ⟨⟨ks, hq, hr⟩, he⟩ := h12
  obtain ⟨⟨ks2, hq2, hr2⟩, he2⟩ := h23
  refine ⟨⟨ks ++ ks2, ?_, ?_⟩, fun h => he2 (he h)⟩
  · rw [hq2, hq, List.append_assoc]
  · rw [hr2, hr, List.append_assoc]
    simp [joinQueryResponses]

theorem extends_same {r r' : EscPosRenderer} (hq : r'.query_log = r.query_log)
    (hr : r'.response_queue = r.response_queue) (he : r'.elements = r.elements) :
    Extends r r' :=
  ⟨⟨[], by simp [hq], by simp [hr, joinQueryResponses]⟩, fun h => by rw [he]; exact h⟩

theorem extends_push {r r' : EscPosRenderer} {es : List ReceiptElement}
    (hq : r'.query_log = r.query_log) (hr : r'.response_queue = r.response_queue)
    (he : r'.elements = r.elements ++ es) (hff : ∀ e ∈ es, isFF e = false) :
    Extends r r' :=
  ⟨⟨[], by simp [hq], by simp [hr, joinQueryResponses]⟩,
   fun h => by rw [he]; exact noAdjFF_append _ _ h hff⟩

theorem extends_push_ff {r r' : EscPosRenderer}
    (hq : r'.query_log = r.query_log) (hr : r'.response_queue = r.response_queue)
    (he : r'.elements = r.elements ++ [ReceiptElement.formFeed])
    (hg : r.elements.getLast? ≠ some ReceiptElement.formFeed) :
    Extends r r' :=
  ⟨⟨[], by simp [hq], by simp [hr, joinQueryResponses]⟩,
   fun h => by rw [he]; exact noAdjFF_snoc_ff _ h hg⟩

theorem extends_query {r r' : EscPosRenderer} (k : QueryKind)
    (hq : r'.query_log = r.query_log ++ [k])
    (hr : r'.response_queue = r.response_queue ++ specQueryResponse k)
    (he : r'.elements = r.elements) : Extends r r' :=
  ⟨⟨[k], hq, by rw [hr]; simp [joinQueryResponses]⟩, fun h => by rw [he]; exact h⟩

/-! ### Every handler only extends the observable streams -/

theorem flush_line_extends (r : EscPosRenderer) : Extends r (flush_line r) := by
  unfold flush_line
  split
  · exact extends_refl r
  · exact extends_push rfl rfl rfl (nonFF_singleton _ rfl)

theorem flush_clear_extends (r : EscPosRenderer) (c : Prop) [Decidable c] :
    Extends r (if c then { flush_line r with current_line := [] } else r) := by
  split
  · exact extends_trans (flush_line_extends r) (extends_same rfl rfl rfl)
  · exact extends_refl r

theorem handle_raster_graphics_extends (r : EscPosRenderer) (data : List Nat)
    (i : Nat) : Extends r (handle_raster_graphics r data i).1 := by
  unfold handle_raster_graphics
  dsimp only
  repeat' split
  all_goals
    first
      | exact extends_refl _
      | exact extends_trans
          (extends_trans (flush_line_extends _) (extends_same rfl rfl rfl))
          (extends_push rfl rfl rfl (nonFF_singleton _ rfl))
      | exact extends_push rfl rfl rfl (nonFF_singleton _ rfl)

theorem handle_raster_graphics_gs_extends (r : EscPosRenderer) (data : List Nat)
    (i : Nat) : Extends r (handle_raster_graphics_gs r data i).1 := by
  unfold handle_raster_graphics_gs
  dsimp only
  repeat' split
  all_goals
    first
      | exact extends_refl _
      | exact extends_trans
          (extends_trans (flush_line_extends _) (extends_same rfl rfl rfl))
          (extends_push rfl rfl rfl (nonFF_singleton _ rfl))
      | exact extends_push rfl rfl rfl (nonFF_singleton _ rfl)

theorem handle_gs_8l_extends (r : EscPosRenderer) (data : List Nat)
    (i : Nat) : Extends r (handle_gs_8l r data i).1 := by
  unfold handle_gs_8l
  dsimp only
  repeat' split
  all_goals
    first
      | exact extends_refl _
      | exact extends_trans
          (extends_trans (flush_line_extends _) (extends_same rfl rfl rfl))
          (extends_push rfl rfl rfl (nonFF_singleton _ rfl))
      | exact extends_push rfl rfl rfl (nonFF_singleton _ rfl)

theorem handle_qr_code_extends (r : EscPosRenderer) (data : List Nat)
    (i : Nat) : Extends r (handle_qr_code r data i).1 := by
  unfold handle_qr_code
  dsimp only
  repeat' split
  all_goals
    first
      | exact extends_refl _
      | exact extends_same rfl rfl rfl
      | exact extends_trans
          (extends_trans (flush_line_extends _) (extends_same rfl rfl rfl))
          (extends_push rfl rfl rfl (nonFF_singleton _ rfl))
      | exact extends_push rfl rfl rfl (nonFF_singleton _ rfl)

theorem handle_paper_cut_extends (r : EscPosRenderer) (data : List Nat)
    (i : Nat) : Extends r (handle_paper_cut r data i).1 := by
  unfold handle_paper_cut
  exact extends_trans (flush_line_extends r)
    (extends_push rfl rfl rfl (nonFF_singleton _ rfl))

theorem handle_esc_command_extends (r : EscPosRenderer) (data : List Nat)
    (i : Nat) : Extends r (handle_esc_command r data i).1 := by
  unfold handle_esc_command
  dsimp only
  repeat' split
  all_goals
    first
      | exact extends_refl _
      | exact extends_same rfl rfl rfl
      | exact handle_raster_graphics_extends _ _ _
      | exact extends_push rfl rfl rfl (nonFF_replicate _)
      | exact extends_push rfl rfl rfl (nonFF_singleton _ rfl)

theorem handle_gs_command_extends (r : EscPosRenderer) (data : List Nat)
    (i : Nat) : Extends r (handle_gs_command r data i).1 := by
  unfold handle_gs_command
  dsimp only
  repeat' split
  all_goals
    first
      | exact extends_refl _
      | exact extends_same rfl rfl rfl
      | exact handle_gs_8l_extends _ _ _
      | exact handle_paper_cut_extends _ _ _
      | exact handle_raster_graphics_gs_extends _ _ _
      | exact handle_qr_code_extends _ _ _
      | exact extends_query QueryKind.asbEnable rfl rfl rfl
      | exact extends_query QueryKind.idManufacturer rfl rfl rfl
      | exact extends_query QueryKind.idModel rfl rfl rfl
      | exact extends_query QueryKind.transmitStatus rfl rfl rfl

theorem lf_flush_extends (r r1 : EscPosRenderer)
    (hq : r1.query_log = r.query_log) (hr : r1.response_queue = r.response_queue)
    (he : r1.elements = r.elements) :
    Extends r { flush_line r1 with current_line := [] } :=
  extends_trans (extends_same hq hr he)
    (extends_trans (flush_line_extends r1) (extends_same rfl rfl rfl))

theorem process_step_extends (r : EscPosRenderer) (data : List Nat) (i : Nat) :
    Extends r (process_step r data i).renderer := by
  have hesc : Extends r
      (handle_esc_command { r with in_command_sequence := true } data (i + 1)).1 :=
    extends_trans (extends_same rfl rfl rfl) (handle_esc_command_extends _ _ _)
  have hgs : Extends r
      (handle_gs_command { r with in_command_sequence := true } data (i + 1)).1 :=
    extends_trans (extends_same rfl rfl rfl) (handle_gs_command_extends _ _ _)
  unfold process_step
  dsimp only
  repeat' split
  all_goals
    first
      | exact extends_refl _
      | exact extends_same rfl rfl rfl
      | exact extends_query QueryKind.realTimeStatus rfl rfl rfl
      | exact hesc
      | exact extends_trans hesc (extends_same rfl rfl rfl)
      | exact hgs
      | exact extends_trans hgs (extends_same rfl rfl rfl)
      | exact lf_flush_extends _ _ rfl rfl rfl
      | exact extends_push rfl rfl rfl (nonFF_singleton _ rfl)
      | exact extends_push_ff rfl rfl rfl (by assumption)

theorem process_loop_extends (fuel : Nat) :
    ∀ (r : EscPosRenderer) (data : List Nat) (i : Nat),
      Extends r (process_loop r data i fuel).1 := by
  induction fuel with
  | zero => intro r data i; exact extends_refl r
  | succ f ih =>
    intro r data i
    unfold process_loop
    split
    · cases hstep : process_step r data i with
      | cont r1 i1 =>
        have h1 : Extends r r1 := by
          have := process_step_extends r data i
          rw [hstep] at this
          exact this
        exact extends_trans h1 (ih r1 data i1)
      | stop r1 i1 =>
        have h1 : Extends r r1 := by
          have := process_step_extends r data i
          rw [hstep] at this
          exact this
        simpa using h1
    · exact extends_refl r

theorem process_data_extends (r : EscPosRenderer) (chunk : List Nat) :
    Extends r (process_data r chunk) := by
  unfold process_data
  dsimp only
  have h0 : Extends r { r with buffer := r.buffer ++ chunk } := extends_same rfl rfl rfl
  have h1 := process_loop_extends ((r.buffer ++ chunk).length + 1)
      { r with buffer := r.buffer ++ chunk } (r.buffer ++ chunk) 0
  exact extends_trans (extends_trans h0 h1) (extends_same rfl rfl rfl)

theorem runFrom_extends (chunks : List (List Nat)) :
    ∀ r : EscPosRenderer, Extends r (runFrom r chunks) := by
  induction chunks with
  | nil => intro r; exact extends_refl r
  | cons c cs ih =>
    intro r
    exact extends_trans (process_data_extends r c) (ih (process_data r c))

theorem drop_length_sub_one {A : Type} (l : List A) (h : l ≠ []) :
    l.drop (l.length - 1) = [l.getLast h] := by
  induction l with
  | nil => exact absurd rfl h
  | cons a t ih =>
    cases t with
    | nil => rfl
    | cons b t2 =>
      have hne : (b :: t2) ≠ ([] : List A) := by simp
      have h1 : (a :: b :: t2).length - 1 = (b :: t2).length := by simp
      have h2 : (b :: t2).length = ((b :: t2).length - 1) + 1 := by simp
      calc (a :: b :: t2).drop ((a :: b :: t2).length - 1)
          = (b :: t2).drop ((b :: t2).length - 1) := by
            rw [h1]
            conv_lhs => rw [h2]
            rfl
        _ = [(b :: t2).getLast hne] := ih hne
        _ = [(a :: b :: t2).getLast h] := by rw [List.getLast_cons hne]

theorem drop_dropLast_cons (data : List Nat) (i : Nat) (h : i + 1 < data.length) :
    (data.drop i).dropLast = data.getD i 0 :: (data.drop (i + 1)).dropLast := by
  have hlt : i < data.length := by omega
  rw [List.drop_eq_getElem_cons hlt]
  have hne : data.drop (i + 1) ≠ [] := by
    rw [ne_eq, List.drop_eq_nil_iff]
    omega
  rw [List.dropLast_cons_of_ne_nil hne, List.getD_eq_getElem data 0 hlt]

/-- On a printable byte, the dispatch loop body either holds the byte back
(when it is the last byte of a non-empty buffer) or consumes it, appending
it to `current_line` exactly when neither parser flag blocks text. -/
theorem printable_step (r : EscPosRenderer) (data : List Nat) (i : Nat)
    (hrange : (0x20 ≤ data.getD i 0 ∧ data.getD i 0 ≤ 0x7E) ∨
      (0x80 ≤ data.getD i 0 ∧ data.getD i 0 ≤ 0xFF)) :
    process_step r data i =
      (if i = data.length - 1 ∧ r.buffer ≠ [] then StepOut.stop r i
       else StepOut.cont
         (if r.in_command_sequence = false ∧ r.last_was_binary = false then
           { r with current_line := r.current_line ++ [data.getD i 0] }
          else r) (i + 1)) := by
  unfold process_step
  split
  · rename_i heq; rw [heq] at hrange; omega
  · rename_i heq; rw [heq] at hrange; omega
  · rename_i heq; rw [heq] at hrange; omega
  · rename_i heq; rw [heq] at hrange; omega
  · rename_i heq; rw [heq] at hrange; omega
  · rename_i heq; rw [heq] at hrange; omega
  · rename_i heq; rw [heq] at hrange; omega
  · rename_i heq; rw [heq] at hrange; omega
  · rename_i heq; rw [heq] at hrange; omega
  · rename_i heq; rw [heq] at hrange; omega
  · rw [if_pos hrange]

/-- Running the dispatch loop over a buffer of printable bytes appends
everything but the final byte to `current_line` (when the parser flags
allow) and stops at the final byte, which becomes the drain point. -/
theorem printable_loop (data : List Nat)
    (hp : ∀ b ∈ data, isPrintableByte b = true) :
    ∀ (fuel : Nat) (r : EscPosRenderer) (i : Nat), r.buffer = data →
      i < data.length → data.length ≤ i + fuel →
      process_loop r data i fuel =
        ({ r with current_line := r.current_line ++
            (if r.in_command_sequence = false ∧ r.last_was_binary = false then
              (data.drop i).dropLast else []) },
          data.length - 1) := by
  intro fuel
  induction fuel with
  | zero => intro r i hbuf hi hle; omega
  | succ f ih =>
    intro r i hbuf hi hle
    have hbyte : isPrintableByte (data.getD i 0) = true := by
      apply hp
      rw [List.getD_eq_getElem data 0 hi]
      exact List.getElem_mem hi
    have hrange : (0x20 ≤ data.getD i 0 ∧ data.getD i 0 ≤ 0x7E) ∨
        (0x80 ≤ data.getD i 0 ∧ data.getD i 0 ≤ 0xFF) := by
      unfold isPrintableByte at hbyte
      simp only [Bool.or_eq_true, Bool.and_eq_true, decide_eq_true_eq] at hbyte
      exact hbyte
    have hbne : r.buffer ≠ [] := by
      rw [hbuf]
      intro hc
      rw [hc] at hi
      simp at hi
    rw [process_loop, if_pos hi, printable_step r data i hrange]
    by_cases hlast : i = data.length - 1
    · rw [if_pos ⟨hlast, hbne⟩]
      dsimp only
      have hdrop : (data.drop i).dropLast = [] := by
        have hlen : (data.drop i).length = 1 := by
          rw [List.length_drop]
          omega
        cases hdi : data.drop i with
        | nil => rfl
        | cons x t =>
          cases t with
          | nil => rfl
          | cons y t2 => rw [hdi] at hlen; simp at hlen
      rw [hdrop, hlast]
      obtain ⟨st, cl, buf, el, ic, qd, qs, qe, rq, lb, ql⟩ := r
      simp
    · rw [if_neg (fun hc => hlast hc.1)]
      dsimp only
      have hi1 : i + 1 < data.length := by omega
      by_cases hfl : r.in_command_sequence = false ∧ r.last_was_binary = false
      · rw [if_pos hfl]
        rw [ih { r with current_line := r.current_line ++ [data.getD i 0] } (i + 1)
          hbuf hi1 (by omega)]
        rw [if_pos hfl, if_pos hfl]
        rw [drop_dropLast_cons data i hi1]
        simp
      · rw [if_neg hfl]
        rw [ih r (i + 1) hbuf hi1 (by omega)]
        rw [if_neg hfl, if_neg hfl]


/-- A lone `LF` fed to a renderer with no elements and no pending buffer
emits no `Separator` (the blank-line `Separator` is guarded by a non-empty
element stream; a non-empty `current_line` flushes to a `Text` element
instead). -/
theorem lf_no_leading_sep (r : EscPosRenderer) (h1 : r.elements = [])
    (h2 : r.buffer = []) : lfNoLeadingSeparatorClaim r := by
  unfold lfNoLeadingSeparatorClaim
  obtain ⟨st, cl, buf, el, ic, qd, qs, qe, rq, lb, ql⟩ := r
  dsimp only at h1 h2
  subst h1
  subst h2
  cases cl with
  | nil =>
    intro e he
    have hz : (process_data (⟨st, [], [], [], ic, qd, qs, qe, rq, lb, ql⟩ :
        EscPosRenderer) [0x0A]).elements = [] := rfl
    rw [hz] at he
    exact absurd he (List.not_mem_nil e)
  | cons b bs =>
    intro e he
    have hz : (process_data (⟨st, b :: bs, [], [], ic, qd, qs, qe, rq, lb, ql⟩ :
        EscPosRenderer) [0x0A]).elements = [mkTextElement st (b :: bs)] := rfl
    rw [hz, List.mem_singleton] at he
    subst he
    simp [mkTextElement]

/-! ### The claims -/

/-- C1 (code_bug evidence).  Chunk-independence fails: the stream
`10 04 01` (`DLE EOT n`) queues the status byte `0x12` when fed whole, but
queues nothing when fed as `10 04` followed by `01`, because the `DLE`
handler consumes the introducer and subcommand without rewinding when `n`
has not arrived, and the later `01` is then treated as a bare `SOH`
control byte. -/
theorem C1_dle_split_divergence :
    (process_data (process_data EscPosRenderer.new [0x10, 0x04]) [0x01]).response_queue
        = [] ∧
    (process_data (process_data EscPosRenderer.new [0x10, 0x04]) [0x01]).buffer = [] ∧
    (process_data EscPosRenderer.new [0x10, 0x04, 0x01]).response_queue = [0x12] := by
  decide

/-- C2 (code_bug evidence).  A multi-byte command can be dropped without
taking effect: `ESC p` with only one of its three parameter bytes present
is consumed past the introducer (the buffer is fully drained instead of
drained only up to `ESC`), no element is emitted then or after the
remaining bytes arrive, while the unsplit stream emits the `CashDrawer`
element. -/
theorem C2_escp_split_divergence :
    (process_data EscPosRenderer.new [0x1B, 0x70, 0x05]).buffer = [] ∧
    (process_data EscPosRenderer.new [0x1B, 0x70, 0x05]).elements = [] ∧
    (process_data (process_data EscPosRenderer.new [0x1B, 0x70, 0x05])
        [0x64, 0x32]).elements = [] ∧
    (process_data EscPosRenderer.new [0x1B, 0x70, 0x05, 0x64, 0x32]).elements
        = [ReceiptElement.cashDrawer 5 100 50] := by
  decide

/-- C3.  Response ordering: over any sequence of chunks fed to a fresh
renderer, the reverse-channel bytes are exactly the concatenation, in
input order, of the spec-mandated pattern of each matched query command
(as recorded in the ghost query log), and no other bytes are queued. -/
theorem C3_response_ordering (chunks : List (List Nat)) :
    (runChunks chunks).response_queue =
      joinQueryResponses (runChunks chunks).query_log := by
  obtain ⟨⟨ks, hq, hr⟩, -⟩ := runFrom_extends chunks EscPosRenderer.new
  show (runFrom EscPosRenderer.new chunks).response_queue =
    joinQueryResponses (runFrom EscPosRenderer.new chunks).query_log
  rw [hq, hr]
  simp [EscPosRenderer.new, joinQueryResponses]

/-- C6.  One-shot horizontal offset: each function that can emit a
`Text`, `RasterImage` or `QrCode` element either leaves the element
stream unchanged or leaves `horizontal_offset` equal to 0 (every emitted
element carries the offset current at its push, so the next element sees
offset 0 unless `ESC $` / `ESC \` intervene). -/
theorem C6_one_shot_offset (r : EscPosRenderer) (data : List Nat) (i : Nat) :
    ((flush_line r).state.horizontal_offset = 0 ∨
      (flush_line r).elements = r.elements) ∧
    ((handle_raster_graphics r data i).1.state.horizontal_offset = 0 ∨
      (handle_raster_graphics r data i).1.elements = r.elements) ∧
    ((handle_raster_graphics_gs r data i).1.state.horizontal_offset = 0 ∨
      (handle_raster_graphics_gs r data i).1.elements = r.elements) ∧
    ((handle_gs_8l r data i).1.state.horizontal_offset = 0 ∨
      (handle_gs_8l r data i).1.elements = r.elements) ∧
    ((handle_qr_code r data i).1.state.horizontal_offset = 0 ∨
      (handle_qr_code r data i).1.elements = r.elements) := by
  refine ⟨?_, ?_, ?_, ?_, ?_⟩
  · unfold flush_line
    split
    · right; rfl
    · left; rfl
  · unfold handle_raster_graphics
    dsimp only
    repeat' split
    all_goals first | (left; rfl) | (right; rfl)
  · unfold handle_raster_graphics_gs
    dsimp only
    repeat' split
    all_goals first | (left; rfl) | (right; rfl)
  · unfold handle_gs_8l
    dsimp only
    repeat' split
    all_goals first | (left; rfl) | (right; rfl)
  · unfold handle_qr_code
    dsimp only
    repeat' split
    all_goals first | (left; rfl) | (right; rfl)

/-- C7.  Size-mode bit decoding of `GS !` and `ESC !`, as the spec states
it, for every parameter byte. -/
theorem C7_size_mode_bits (r : EscPosRenderer) (n : Nat) (_h : n < 256) :
    sizeModeBitsClaim r n :=
  ⟨⟨rfl, rfl, rfl, rfl, rfl, rfl⟩, ⟨rfl, rfl, rfl, rfl⟩⟩

/-- Witness for C7 at the spec's own instance `n = 0x11`. -/
theorem C7_size_mode_bits_witness :
    (0x11 : Nat) < 256 ∧ sizeModeBitsClaim EscPosRenderer.new 0x11 :=
  ⟨by decide, C7_size_mode_bits EscPosRenderer.new 0x11 (by decide)⟩

/-- C9.  `GS V` with a non-empty pending line emits the `Text` element for
the pending line immediately before the `PaperCut`, and does not clear
`current_line`, so the same bytes can be flushed again later. -/
theorem C9_paper_cut_flush (r : EscPosRenderer) (mode : Nat)
    (h : r.current_line ≠ []) : paperCutFlushClaim r mode := by
  unfold paperCutFlushClaim handle_paper_cut flush_line
  rw [if_neg h]
  refine ⟨?_, rfl⟩
  dsimp only
  rw [List.append_assoc]
  rfl

/-- Witness for C9 with one pending byte. -/
theorem C9_paper_cut_flush_witness :
    ({ EscPosRenderer.new with current_line := [0x48] } : EscPosRenderer).current_line
        ≠ [] ∧
    paperCutFlushClaim { EscPosRenderer.new with current_line := [0x48] } 0 :=
  ⟨by decide,
   C9_paper_cut_flush { EscPosRenderer.new with current_line := [0x48] } 0 (by decide)⟩

/-- C4.  Init idempotence: from any renderer with an empty pending buffer,
two consecutive `ESC @` leave the printer state equal to one `ESC @`, and
both equal the freshly-constructed defaults (character effects off,
alignment left, density 4, code page 0, offsets/margins/width 0, line
spacing 30, character spacing 0, font 0). -/
theorem C4_init_idempotence (r : EscPosRenderer) (h : r.buffer = []) :
    (process_data r [0x1B, 0x40, 0x1B, 0x40]).state =
        (process_data r [0x1B, 0x40]).state ∧
    (process_data r [0x1B, 0x40]).state = PrinterState.default ∧
    PrinterState.default.bold = false ∧
    PrinterState.default.underline = false ∧
    PrinterState.default.double_width = false ∧
    PrinterState.default.double_height = false ∧
    PrinterState.default.inverted = false ∧
    PrinterState.default.double_strike = false ∧
    PrinterState.default.alignment = Alignment.left ∧
    PrinterState.default.print_density = 4 ∧
    PrinterState.default.code_page = 0 ∧
    PrinterState.default.horizontal_offset = 0 ∧
    PrinterState.default.left_margin = 0 ∧
    PrinterState.default.print_area_width = 0 ∧
    PrinterState.default.line_spacing = 30 ∧
    PrinterState.default.character_spacing = 0 ∧
    PrinterState.default.font = 0 := by
  obtain ⟨st, cl, buf, el, ic, qd, qs, qe, rq, lb, ql⟩ := r
  dsimp only at h
  subst h
  have hA : (process_data (⟨st, cl, [], el, ic, qd, qs, qe, rq, lb, ql⟩ :
      EscPosRenderer) [0x1B, 0x40, 0x1B, 0x40]).state = PrinterState.default := rfl
  have hB : (process_data (⟨st, cl, [], el, ic, qd, qs, qe, rq, lb, ql⟩ :
      EscPosRenderer) [0x1B, 0x40]).state = PrinterState.default := rfl
  exact ⟨hA.trans hB.symm, hB, rfl, rfl, rfl, rfl, rfl, rfl, rfl, rfl, rfl, rfl,
    rfl, rfl, rfl, rfl, rfl⟩

/-- Witness for C4 at the fresh renderer. -/
theorem C4_init_idempotence_witness :
    EscPosRenderer.new.buffer = [] ∧
    ((process_data EscPosRenderer.new [0x1B, 0x40, 0x1B, 0x40]).state =
        (process_data EscPosRenderer.new [0x1B, 0x40]).state ∧
      (process_data EscPosRenderer.new [0x1B, 0x40]).state = PrinterState.default ∧
      PrinterState.default.bold = false ∧
      PrinterState.default.underline = false ∧
      PrinterState.default.double_width = false ∧
      PrinterState.default.double_height = false ∧
      PrinterState.default.inverted = false ∧
      PrinterState.default.double_strike = false ∧
      PrinterState.default.alignment = Alignment.left ∧
      PrinterState.default.print_density = 4 ∧
      PrinterState.default.code_page = 0 ∧
      PrinterState.default.horizontal_offset = 0 ∧
      PrinterState.default.left_margin = 0 ∧
      PrinterState.default.print_area_width = 0 ∧
      PrinterState.default.line_spacing = 30 ∧
      PrinterState.default.character_spacing = 0 ∧
      PrinterState.default.font = 0) :=
  ⟨rfl, C4_init_idempotence EscPosRenderer.new rfl⟩

/-- C5 counterexample: `ESC d 1` emits a `Separator` as the first element
of an empty element stream, so "a Separator is never emitted as the first
element" is false as stated. -/
theorem C5_separator_first_cex :
    (process_data EscPosRenderer.new [0x1B, 0x64, 0x01]).elements =
      [ReceiptElement.separator] := by
  decide

/-- C5 amended.  Over any chunk sequence from a fresh renderer, two
consecutive `FormFeed` elements never occur; and the blank-line (`LF`)
path never emits a leading `Separator`: when the element stream is empty
and no bytes are pending, a lone `LF` emits no `Separator` (though
`ESC d` / `ESC J` can still emit leading Separators). -/
theorem C5_element_stream_amended (chunks : List (List Nat)) :
    noAdjFF (runChunks chunks).elements = true ∧
    ((runChunks chunks).elements = [] → (runChunks chunks).buffer = [] →
      lfNoLeadingSeparatorClaim (runChunks chunks)) := by
  constructor
  · obtain ⟨-, he⟩ := runFrom_extends chunks EscPosRenderer.new
    exact he rfl
  · intro h1 h2
    exact lf_no_leading_sep _ h1 h2

/-- Witness for C5 after a single blank-line chunk. -/
theorem C5_element_stream_witness :
    lfNoLeadingSeparatorClaim (runChunks [[0x0A]]) :=
  (C5_element_stream_amended [[0x0A]]).2 (by decide) (by decide)

/-- C8 counterexample: with the current offset at 32767 (set by
`ESC $ FF 7F`), `ESC \ 01 00` decodes the displacement +1 but the i16
addition wraps, so the code clamps the wrapped sum to 0 instead of the
exact clamped sum 32768 the claim specifies. -/
theorem C8_relative_offset_cex :
    ¬ relOffsetExactClaim (process_data EscPosRenderer.new [0x1B, 0x24, 0xFF, 0x7F])
        0x01 0x00 ∧
    (process_data EscPosRenderer.new [0x1B, 0x24, 0xFF, 0x7F]).state.horizontal_offset
        = 32767 ∧
    sign16 (0x01 + 256 * 0x00) = 1 ∧
    (process_data (process_data EscPosRenderer.new [0x1B, 0x24, 0xFF, 0x7F])
        [0x1B, 0x5C, 0x01, 0x00]).state.horizontal_offset = 0 ∧
    (max ((32767 : Int) + 1) 0).toNat = 32768 := by
  unfold relOffsetExactClaim
  decide

/-- C8 amended.  `ESC \ nL nH` sets the offset to the exact sum of the
current offset and the little-endian signed 16-bit displacement, clamped
at 0, provided the current offset is below 2^15 and the exact sum fits in
the signed 16-bit range; outside that range the code clamps the wrapping
16-bit sum instead. -/
theorem C8_relative_offset_amended (r : EscPosRenderer) (nl nh : Nat)
    (h1 : r.state.horizontal_offset < 32768)
    (h2 : -32768 ≤ (r.state.horizontal_offset : Int) + sign16 (nl + 256 * nh))
    (h3 : (r.state.horizontal_offset : Int) + sign16 (nl + 256 * nh) < 32768) :
    relOffsetExactClaim r nl nh := by
  unfold relOffsetExactClaim
  have hL : (handle_esc_command r [0x5C, nl, nh] 0).1.state.horizontal_offset =
      (max (wrap16 (sign16 r.state.horizontal_offset +
        sign16 (nl + 256 * nh))) 0).toNat := rfl
  rw [hL]
  have hs : sign16 r.state.horizontal_offset = (r.state.horizontal_offset : Int) := by
    unfold sign16
    split <;> omega
  rw [hs]
  have hw : wrap16 ((r.state.horizontal_offset : Int) + sign16 (nl + 256 * nh)) =
      (r.state.horizontal_offset : Int) + sign16 (nl + 256 * nh) := by
    unfold wrap16
    omega
  rw [hw]

/-- Witness for C8 at the fresh renderer with displacement +10. -/
theorem C8_relative_offset_witness :
    EscPosRenderer.new.state.horizontal_offset < 32768 ∧
    -32768 ≤ (EscPosRenderer.new.state.horizontal_offset : Int) +
      sign16 (10 + 256 * 0) ∧
    (EscPosRenderer.new.state.horizontal_offset : Int) + sign16 (10 + 256 * 0)
      < 32768 ∧
    relOffsetExactClaim EscPosRenderer.new 10 0 :=
  ⟨by decide, by decide, by decide,
   C8_relative_offset_amended EscPosRenderer.new 10 0 (by decide) (by decide)
     (by decide)⟩

/-- C10 counterexample: the last byte of `1B 45 31` is printable (`'1'`),
yet it is consumed in the same call as the parameter of `ESC E`, leaving
the buffer empty - so "the last printable byte is never consumed" is false
as stated. -/
theorem C10_trailing_printable_cex :
    isPrintableByte 0x31 = true ∧
    (process_data EscPosRenderer.new [0x1B, 0x45, 0x31]).buffer = [] := by
  decide

/-- C10 amended.  When the byte is dispatched as text - in particular for
a chunk consisting solely of printable bytes arriving on an empty buffer -
no element is emitted, the final byte stays buffered for the next call,
and (outside command/binary mode) the remaining bytes join `current_line`.
A printable byte consumed as a command parameter is not held back. -/
theorem C10_trailing_printable_amended (r : EscPosRenderer) (bytes : List Nat)
    (hbuf : r.buffer = []) (hne : bytes ≠ [])
    (hp : ∀ b ∈ bytes, isPrintableByte b = true) :
    trailingPrintableClaim r bytes hne := by
  have hpos : 0 < bytes.length := List.length_pos.mpr hne
  unfold trailingPrintableClaim process_data
  dsimp only
  rw [hbuf]
  simp only [List.nil_append]
  rw [printable_loop bytes hp (bytes.length + 1) { r with buffer := bytes } 0 rfl
    hpos (by omega)]
  dsimp only
  refine ⟨rfl, drop_length_sub_one bytes hne, ?_⟩
  intro hic hlb
  rw [if_pos ⟨hic, hlb⟩, List.drop_zero]

/-- Witness for C10 on the chunk "AB". -/
theorem C10_trailing_printable_witness :
    EscPosRenderer.new.buffer = [] ∧ ([0x41, 0x42] : List Nat) ≠ [] ∧
    (∀ b ∈ ([0x41, 0x42] : List Nat), isPrintableByte b = true) ∧
    trailingPrintableClaim EscPosRenderer.new [0x41, 0x42] (by decide) :=
  ⟨rfl, by decide, by decide,
   C10_trailing_printable_amended EscPosRenderer.new [0x41, 0x42] rfl (by decide)
     (by decide)⟩

end EscPos
